import Mathlib

/-!
Shallow embedding of `qola.py`, a programmatic SQL-statement assembler.

The data model (Table, the six fragment accumulators, Expr, the query
builder `Q`) and the translator (`Database.assemble` with its four
`_build_*` functions) are translated directly from the source.  Python
parameter values (strings, integers, `None`) are modelled by `Value`;
Python's `str.join`, `str.strip` and `str.rjust` are modelled by
`pyJoin`, `pyStrip` and `pyRjust`.  Methods that may in principle mutate
their object are embedded in state-passing style: each `_build_*`
function returns the (sql, params) pair together with the query-builder
state after the call.
-/

/-- A Python runtime value as it appears in parameter lists:
a string, an integer, or `None`. -/
inductive Value where
  | str : String → Value
  | int : Int → Value
  | null : Value
deriving DecidableEq

/-- Python's `str(x)` on a `Value` (used by `Limiter.add`). -/
def Value.pyStr : Value → String
  | .str s => s
  | .int i => toString i
  | .null => "None"

/-- Python's `sep.join(parts)`. -/
def pyJoin (sep : String) : List String → String
  | [] => ""
  | a :: as => as.foldl (fun acc x => acc ++ sep ++ x) a

/-- Python's `s.strip()`: remove leading and trailing whitespace. -/
def pyStrip (s : String) : String :=
  ⟨((s.data.dropWhile Char.isWhitespace).reverse.dropWhile Char.isWhitespace).reverse⟩

/-- Python's `s.rjust(width)`: left-pad with spaces up to `width`. -/
def pyRjust (s : String) (width : Nat) : String :=
  if s.length < width then String.mk (List.replicate (width - s.length) ' ') ++ s else s

/-- The `class Table`: a table descriptor with a name, a primary-key column
and an optional alias_ (`''` meaning no alias_). -/
structure Table where
  name : String
  pk : String
  alias_ : String
deriving DecidableEq

/-- The `Table.identifier`: `alias_ = self.alias_.strip().rjust(1) if self.alias_ else ''`
followed by `'%s%s' % (self.name, alias_)`. -/
def Table.identifier (t : Table) : String :=
  let alias_ := if t.alias_ ≠ "" then pyRjust (pyStrip t.alias_) 1 else ""
  t.name ++ alias_

/-- The `class Expr`: a SQL-side value expression (placeholder or literal
text) paired with the parameters it binds. -/
structure Expr where
  value : String
  params : List Value
deriving DecidableEq

/-- The `class Selector`: ordered sequence of column expressions. -/
structure Selector where
  cols : List String
deriving DecidableEq

/-- The `Selector.__call__`: `self.cols if self.cols else ['*']`. -/
def Selector.call (s : Selector) : List String :=
  if s.cols ≠ [] then s.cols else ["*"]

/-- The `Selector.add`: optionally alias_-qualify, then extend `cols`. -/
def Selector.add (s : Selector) (cols : List String) (alias_ : Option String) : Selector :=
  let cols := match alias_ with
    | some a => cols.map (fun k => a ++ "." ++ k)
    | none => cols
  { cols := s.cols ++ cols }

/-- The `class Joiner`: flattened ordered sequence of join tokens. -/
structure Joiner where
  joins : List String
deriving DecidableEq

/-- The `Joiner.__call__`: `return self.joins`. -/
def Joiner.call (j : Joiner) : List String :=
  j.joins

/-- The `Joiner.add`: append `join_type`, `'JOIN'`, `tbl.identifier()`;
`join_on` is accepted but unused in the body. -/
def Joiner.add (j : Joiner) (tbl : Table) (join_on : String) (outer : Bool) : Joiner :=
  let _ := join_on
  let join_type := if outer then "OUTER" else "INNER"
  { joins := j.joins ++ [join_type, "JOIN", tbl.identifier] }

/-- The `class Clauser`: co-indexed sequences of clause fragments and
flattened parameter values. -/
structure Clauser where
  clauses : List String
  params : List Value
deriving DecidableEq

/-- The `Clauser.__call__`: `return self.clauses`. -/
def Clauser.call (c : Clauser) : List String :=
  c.clauses

/-- The `Clauser.add`: if `clauses` is non-empty first append `'OR'`/`'AND'`,
then append the clause to `clauses` and extend `params`. -/
def Clauser.add (c : Clauser) (clause : String) (ps : List Value) (is_or : Bool) : Clauser :=
  let clauses := if c.clauses ≠ [] then
    c.clauses ++ [if is_or then "OR" else "AND"] else c.clauses
  { clauses := clauses ++ [clause], params := c.params ++ ps }

/-- The `class Orderer`: ordered sequence of order expressions. -/
structure Orderer where
  orders : List String
deriving DecidableEq

/-- The `Orderer.__call__`: `return self.orders`. -/
def Orderer.call (o : Orderer) : List String :=
  o.orders

/-- The `Orderer.add`: `self.orders.extend(to_list(order))`. -/
def Orderer.add (o : Orderer) (order : List String) : Orderer :=
  { orders := o.orders ++ order }

/-- The `class Limiter`: limit values stored in string form; `add` replaces. -/
structure Limiter where
  limits : List String
deriving DecidableEq

/-- The `Limiter.__call__`: `return self.limits`. -/
def Limiter.call (l : Limiter) : List String :=
  l.limits

/-- The `Limiter.add`: `self.limits = [str(l) for l in to_list(limits)]`. -/
def Limiter.add (l : Limiter) (limits : List Value) : Limiter :=
  let _ := l
  { limits := limits.map Value.pyStr }

/-- The argument of `Setter.add`: either an object that is already an
`Expr` or a plain value (Python's `isinstance(value, Expr)` test). -/
inductive SetValue where
  | raw : Expr → SetValue
  | val : Value → SetValue
deriving DecidableEq

/-- Python dict assignment `items[key] = e` on an insertion-ordered
association list: replace in place if present, else append. -/
def setItem (items : List (String × Expr)) (key : String) (e : Expr) : List (String × Expr) :=
  if items.any (fun kv => kv.1 = key) then
    items.map (fun kv => if kv.1 = key then (key, e) else kv)
  else
    items ++ [(key, e)]

/-- The `class Setter`: mapping from column name to `Expr`. -/
structure Setter where
  items : List (String × Expr)
deriving DecidableEq

/-- The `Setter.__call__`: `return self.items`. -/
def Setter.call (s : Setter) : List (String × Expr) :=
  s.items

/-- The `Setter.add`: wrap a non-`Expr` value as `Expr('?', [value])`, then
`self.items[key] = param`. -/
def Setter.add (s : Setter) (key : String) (value : SetValue) : Setter :=
  let param := match value with
    | .raw e => e
    | .val v => Expr.mk "?" [v]
  { items := setItem s.items key param }

/-- The `Selector.__init__` state. -/
def Selector.init : Selector := ⟨[]⟩

/-- The `Joiner.__init__` state. -/
def Joiner.init : Joiner := ⟨[]⟩

/-- The `Clauser.__init__` state. -/
def Clauser.init : Clauser := ⟨[], []⟩

/-- The `Orderer.__init__` state. -/
def Orderer.init : Orderer := ⟨[]⟩

/-- The `Limiter.__init__` state. -/
def Limiter.init : Limiter := ⟨[]⟩

/-- The `Setter.__init__` state. -/
def Setter.init : Setter := ⟨[]⟩

/-- A sequence of `where`-style calls applied to a `Clauser`: each entry
is (clause, parameter list, is_or). -/
def Clauser.addAll (c : Clauser) (ws : List (String × List Value × Bool)) : Clauser :=
  ws.foldl (fun c w => c.add w.1 w.2.1 w.2.2) c

/-- A sequence of `set` calls applied to a `Setter`: each entry is
(key, value). -/
def Setter.addAll (s : Setter) (ops : List (String × SetValue)) : Setter :=
  ops.foldl (fun s op => s.add op.1 op.2) s

/-- The `class Q`: the query builder, owning one `Table` and one instance of
each fragment accumulator. -/
structure Q where
  table : Table
  selector : Selector
  joiner : Joiner
  clauser : Clauser
  orderer : Orderer
  limiter : Limiter
  setter : Setter
deriving DecidableEq

/-- The `Q.__init__`: a fresh builder over a table, all accumulators empty. -/
def Q.init (tbl : Table) : Q :=
  { table := tbl
    selector := Selector.init
    joiner := Joiner.init
    clauser := Clauser.init
    orderer := Orderer.init
    limiter := Limiter.init
    setter := Setter.init }

/-- The `Q.select`. -/
def Q.sel (q : Q) (cols : List String) (alias_ : Option String) : Q :=
  { q with selector := q.selector.add cols alias_ }

/-- The `Q.join`. -/
def Q.joinTbl (q : Q) (tbl : Table) (join_on : String) (outer : Bool) : Q :=
  { q with joiner := q.joiner.add tbl join_on outer }

/-- The `Q.where`. -/
def Q.whereAdd (q : Q) (clause : String) (ps : List Value) (is_or : Bool) : Q :=
  { q with clauser := q.clauser.add clause ps is_or }

/-- The `Q.key`: `self.where('%s = ?' % self.table.pk, val)`. -/
def Q.keyAdd (q : Q) (val : Value) : Q :=
  q.whereAdd (q.table.pk ++ " = ?") [val] false

/-- The `Q.order`. -/
def Q.orderAdd (q : Q) (order : List String) : Q :=
  { q with orderer := q.orderer.add order }

/-- The `Q.limit`. -/
def Q.limitAdd (q : Q) (limits : List Value) : Q :=
  { q with limiter := q.limiter.add limits }

/-- The `Q.set`. -/
def Q.setAdd (q : Q) (key : String) (value : SetValue) : Q :=
  { q with setter := q.setter.add key value }

/-- The error raised by `Database.assemble` when the handler lookup
`getattr(self, '_build_%s' % mode)` fails: an `AttributeError` naming
the missing attribute.  `unsupportedMode` is the dedicated error the
specification describes; the code never produces it. -/
inductive AsmError where
  | attributeError (attr : String)
  | unsupportedMode (mode : String)
deriving DecidableEq

namespace Database

/-- The `Database._list_null`: `[None if v == '' else v for v in values]`. -/
def _list_null (values : List Value) : List Value :=
  values.map (fun v => if v = Value.str "" then Value.null else v)

/-- The `Database._select`: `['SELECT', ','.join(cols)]`. -/
def _select (cols : List String) : List String :=
  ["SELECT", pyJoin "," cols]

/-- The `Database._from`: extend with `['FROM', tbl.identifier()]`. -/
def _from (parts : List String) (tbl : Table) : List String :=
  parts ++ ["FROM", tbl.identifier]

/-- The `Database._join`: extend with the join tokens when non-empty. -/
def _join (parts : List String) (joins : List String) : List String :=
  if joins ≠ [] then parts ++ joins else parts

/-- The `Database._where`: extend with `['WHERE', ' '.join(clauses)]` when
non-empty. -/
def _where (parts : List String) (clauses : List String) : List String :=
  if clauses ≠ [] then parts ++ ["WHERE", pyJoin " " clauses] else parts

/-- The `Database._order`: extend with `['ORDER BY', ','.join(orders)]` when
non-empty. -/
def _order (parts : List String) (orders : List String) : List String :=
  if orders ≠ [] then parts ++ ["ORDER BY", pyJoin "," orders] else parts

/-- The `Database._limit`: extend with `['LIMIT', ','.join(limits)]` when
non-empty. -/
def _limit (parts : List String) (limits : List String) : List String :=
  if limits ≠ [] then parts ++ ["LIMIT", pyJoin "," limits] else parts

/-- The `Database._insert`: `['INSERT', 'INTO', tbl.name, '(%s)' % ','.join(cols)]`. -/
def _insert (tbl : Table) (cols : List String) : List String :=
  ["INSERT", "INTO", tbl.name, "(" ++ pyJoin "," cols ++ ")"]

/-- The `Database._values`: extend with `['VALUES', '(%s)' % ','.join(vals)]`. -/
def _values (parts : List String) (vals : List String) : List String :=
  parts ++ ["VALUES", "(" ++ pyJoin "," vals ++ ")"]

/-- The `Database._update`: `['UPDATE', tbl.identifier()]`. -/
def _update (tbl : Table) : List String :=
  ["UPDATE", tbl.identifier]

/-- The `Database._set`: extend with `['SET', ','.join(cols)]`. -/
def _set (parts : List String) (cols : List String) : List String :=
  parts ++ ["SET", pyJoin "," cols]

/-- The `Database._delete`: `['DELETE']`. -/
def _delete : List String :=
  ["DELETE"]

/-- The loop of `_build_insert`: for each `(c, q)` in the Setter's items,
append `c` to `cols`, `'?'` to `vals`, and extend `params` with `q.params`. -/
def insertAccum (items : List (String × Expr)) :
    List String × List String × List Value :=
  items.foldl
    (fun acc cq => (acc.1 ++ [cq.1], acc.2.1 ++ ["?"], acc.2.2 ++ cq.2.params))
    ([], [], [])

/-- The loop of `_build_update`: for each `(c, q)` in the Setter's items,
append `'%s = %s' % (c, q.value)` to `cols` and extend `vals` with
`q.params`. -/
def updateAccum (items : List (String × Expr)) : List String × List Value :=
  items.foldl
    (fun acc cq => (acc.1 ++ [cq.1 ++ " = " ++ cq.2.value], acc.2 ++ cq.2.params))
    ([], [])

/-- The `Database._build_select`.  The builder state after the call is
returned alongside the result (no attribute of `qry` is written). -/
def _build_select (qry : Q) : (String × List Value) × Q :=
  let parts := _select qry.selector.call
  let parts := _from parts qry.table
  let parts := _join parts qry.joiner.call
  let parts := _where parts qry.clauser.call
  let parts := _order parts qry.orderer.call
  let parts := _limit parts qry.limiter.call
  ((pyJoin " " parts, qry.clauser.params), qry)

/-- The `Database._build_insert`. -/
def _build_insert (qry : Q) : (String × List Value) × Q :=
  let acc := insertAccum qry.setter.call
  let cols := acc.1
  let vals := acc.2.1
  let params := _list_null acc.2.2
  let parts := _insert qry.table cols
  let parts := _values parts vals
  ((pyJoin " " parts, params), qry)

/-- The `Database._build_update`. -/
def _build_update (qry : Q) : (String × List Value) × Q :=
  let acc := updateAccum qry.setter.call
  let cols := acc.1
  let vals := acc.2
  let parts := _update qry.table
  let parts := _set parts cols
  let parts := _join parts qry.joiner.call
  let parts := _where parts qry.clauser.call
  let params := _list_null qry.clauser.params
  ((pyJoin " " parts, vals ++ params), qry)

/-- The `Database._build_delete`. -/
def _build_delete (qry : Q) : (String × List Value) × Q :=
  let parts := _delete
  let parts := _from parts qry.table
  let parts := _join parts qry.joiner.call
  let parts := _where parts qry.clauser.call
  ((pyJoin " " parts, qry.clauser.params), qry)

/-- The `getattr(self, name)` restricted to the `_build_*` handlers the
`Database` class defines: the mode-dispatch table. -/
def builderFor (name : String) : Option (Q → (String × List Value) × Q) :=
  if name = "_build_select" then some _build_select
  else if name = "_build_insert" then some _build_insert
  else if name = "_build_update" then some _build_update
  else if name = "_build_delete" then some _build_delete
  else none

/-- The `Database.assemble`: `builder = '_build_%s' % mode;
return getattr(self, builder)(qry)`.  A failed `getattr` raises
`AttributeError` naming the missing attribute. -/
def assemble (qry : Q) (mode : String) : Except AsmError ((String × List Value) × Q) :=
  let builder := "_build_" ++ mode
  match builderFor builder with
  | some f => Except.ok (f qry)
  | none => Except.error (AsmError.attributeError builder)

end Database

/-- The `users` table (primary key `id`, no alias) of the
specification's end-to-end scenarios. -/
def usersTable : Table := ⟨"users", "id", ""⟩

/-- Scenario B builder: `insert({'name': 'Alice', 'email': ''})`, i.e.
`set('name', 'Alice')` followed by `set('email', '')`. -/
def scenarioB : Q :=
  ((Q.init usersTable).setAdd "name" (.val (.str "Alice"))).setAdd "email" (.val (.str ""))

/-- A builder whose Setter holds a zero-parameter literal `Expr` and a
two-parameter composite `Expr`. -/
def mixedExprQ : Q :=
  ((Q.init usersTable).setAdd "a" (.raw ⟨"0", []⟩)).setAdd "b"
    (.raw ⟨"(?,?)", [.int 1, .int 2]⟩)

/-- A builder whose Setter holds one simple bound value and one
two-parameter composite `Expr`. -/
def unbalancedExprQ : Q :=
  ((Q.init usersTable).setAdd "a" (.val (.str "x"))).setAdd "b"
    (.raw ⟨"(?,?)", [.int 1, .int 2]⟩)

/-- A two-call `where` sequence used to instantiate the Clauser
invariant. -/
def wsEx : List (String × List Value × Bool) :=
  [("age > ?", [.int 18], false), ("name = ?", [.str "Bob"], true)]

/-! ## Helper lemmas -/

/-- Hoisting a fixed prefix out of the `pyJoin` fold. -/
theorem pyJoin_foldl_hoist (sep : String) (l : List String) :
    ∀ (p acc : String),
      l.foldl (fun r x => r ++ sep ++ x) (p ++ acc)
        = p ++ l.foldl (fun r x => r ++ sep ++ x) acc := by
  induction l with
  | nil => intro p acc; rfl
  | cons a as ih =>
    intro p acc
    simp only [List.foldl_cons]
    rw [String.append_assoc p acc sep, String.append_assoc p (acc ++ sep) a]
    exact ih p (acc ++ sep ++ a)

/-- The `pyJoin` on a list with at least two elements splits off its head. -/
theorem pyJoin_cons_cons (sep a b : String) (l : List String) :
    pyJoin sep (a :: b :: l) = a ++ sep ++ pyJoin sep (b :: l) := by
  show (b :: l).foldl (fun r x => r ++ sep ++ x) a
      = a ++ sep ++ l.foldl (fun r x => r ++ sep ++ x) b
  simp only [List.foldl_cons]
  exact pyJoin_foldl_hoist sep l (a ++ sep) b

/-- String append is left-cancellative. -/
theorem str_append_left_cancel {p a b : String} (h : p ++ a = p ++ b) : a = b := by
  have hd : p.data ++ a.data = p.data ++ b.data := by
    simpa [String.data_append] using congrArg String.data h
  exact String.ext (List.append_cancel_left hd)

/-- Closed form of the `_build_insert` loop, with a running accumulator. -/
theorem insertAccum_go (items : List (String × Expr)) :
    ∀ (c v : List String) (p : List Value),
      items.foldl
        (fun acc cq => (acc.1 ++ [cq.1], acc.2.1 ++ ["?"], acc.2.2 ++ cq.2.params))
        (c, v, p)
      = (c ++ items.map Prod.fst, v ++ items.map (fun _ => "?"),
         p ++ (items.map (fun cq => cq.2.params)).flatten) := by
  induction items with
  | nil => intro c v p; simp
  | cons cq items ih =>
    intro c v p
    simp only [List.foldl_cons, List.map_cons, List.flatten_cons, ih]
    simp

/-- Closed form of the `_build_insert` loop. -/
theorem insertAccum_eq (items : List (String × Expr)) :
    Database.insertAccum items
      = (items.map Prod.fst, items.map (fun _ => "?"),
         (items.map (fun cq => cq.2.params)).flatten) := by
  simpa using insertAccum_go items [] [] []

/-- Closed form of the `_build_update` loop, with a running accumulator. -/
theorem updateAccum_go (items : List (String × Expr)) :
    ∀ (c : List String) (v : List Value),
      items.foldl
        (fun acc cq => (acc.1 ++ [cq.1 ++ " = " ++ cq.2.value], acc.2 ++ cq.2.params))
        (c, v)
      = (c ++ items.map (fun cq => cq.1 ++ " = " ++ cq.2.value),
         v ++ (items.map (fun cq => cq.2.params)).flatten) := by
  induction items with
  | nil => intro c v; simp
  | cons cq items ih =>
    intro c v
    simp only [List.foldl_cons, List.map_cons, List.flatten_cons, ih]
    simp

/-- Closed form of the `_build_update` loop. -/
theorem updateAccum_eq (items : List (String × Expr)) :
    Database.updateAccum items
      = (items.map (fun cq => cq.1 ++ " = " ++ cq.2.value),
         (items.map (fun cq => cq.2.params)).flatten) := by
  simpa using updateAccum_go items [] []

/-- The empty string never survives `_list_null`. -/
theorem str_empty_not_mem_list_null (l : List Value) :
    Value.str "" ∉ Database._list_null l := by
  intro h
  obtain ⟨v, _, hfv⟩ := List.mem_map.mp h
  by_cases hv : v = Value.str ""
  · rw [if_pos hv] at hfv
    cases hfv
  · rw [if_neg hv] at hfv
    exact hv hfv

/-- The `assemble` dispatches mode `select` to `_build_select`. -/
theorem assemble_select_eq (q : Q) :
    Database.assemble q "select" = Except.ok (Database._build_select q) := rfl

/-- The `assemble` dispatches mode `insert` to `_build_insert`. -/
theorem assemble_insert_eq (q : Q) :
    Database.assemble q "insert" = Except.ok (Database._build_insert q) := rfl

/-- The `assemble` dispatches mode `update` to `_build_update`. -/
theorem assemble_update_eq (q : Q) :
    Database.assemble q "update" = Except.ok (Database._build_update q) := rfl

/-- The `assemble` dispatches mode `delete` to `_build_delete`. -/
theorem assemble_delete_eq (q : Q) :
    Database.assemble q "delete" = Except.ok (Database._build_delete q) := rfl

/-! ## Claim theorems -/

/-- Claim C6: `Joiner.add` appends exactly the three tokens
`OUTER`/`INNER` (according to the flag), `JOIN`, and the table's
identifier to the join sequence, and the join-condition argument is not
incorporated: the result does not depend on it. -/
theorem joiner_add_tokens_ignores_condition
    (j : Joiner) (tbl : Table) (join_on : String) (outer : Bool) :
    (j.add tbl join_on outer).joins
        = j.joins ++ [(if outer then "OUTER" else "INNER"), "JOIN", tbl.identifier]
      ∧ ∀ other_on : String, j.add tbl join_on outer = j.add tbl other_on outer := by
  constructor
  · cases outer <;> rfl
  · intro other_on
    rfl

/-- Claim C2 (code bug): at the failing input `Table('users', pk 'id',
alias 'u')`, `identifier()` evaluates to `"usersu"` — the alias is
concatenated directly after the name with no separator, because
`'u'.strip().rjust(1)` is `'u'` — while a separated rendering would be
`"users u"`; with an empty alias the name alone is returned. -/
theorem identifier_alias_no_separator_eval :
    Table.identifier ⟨"users", "id", "u"⟩ = "usersu"
      ∧ (("usersu" : String) == "users" ++ " " ++ "u") = false
      ∧ Table.identifier ⟨"users", "id", ""⟩ = "users" := by
  refine ⟨by decide, by decide, by decide⟩

/-- The parameter component of `_build_update`: raw Setter parameters in
Setter order, then null-normalized Clauser parameters. -/
theorem build_update_params (q : Q) :
    (Database._build_update q).1.2
      = (q.setter.items.map fun cq => cq.2.params).flatten
          ++ Database._list_null q.clauser.params := by
  simp [Database._build_update, updateAccum_eq, Setter.call]

/-- The parameter component of `_build_insert`: the concatenated Setter
parameters, null-normalized as a whole. -/
theorem build_insert_params (q : Q) :
    (Database._build_insert q).1.2
      = Database._list_null ((q.setter.items.map fun cq => cq.2.params).flatten) := by
  simp [Database._build_insert, insertAccum_eq, Setter.call]

/-- Claim C3: assembling in `update` mode returns the Setter parameters
(in Setter iteration order, not null-normalized) followed by the
null-normalized WHERE-clause parameters (in clause order), the builder
state unchanged; the parameter count is the sum of the Setter `Expr`
parameter counts plus the Clauser parameter count. -/
theorem update_params_order_and_length (q : Q) :
    (∃ sql, Database.assemble q "update"
        = Except.ok ((sql,
            (q.setter.items.map fun cq => cq.2.params).flatten
              ++ Database._list_null q.clauser.params), q))
      ∧ ((q.setter.items.map fun cq => cq.2.params).flatten
            ++ Database._list_null q.clauser.params).length
          = (q.setter.items.map fun cq => cq.2.params.length).sum
              + q.clauser.params.length := by
  constructor
  · refine ⟨(Database._build_update q).1.1, ?_⟩
    rw [assemble_update_eq, ← build_update_params q]
    rfl
  · rw [List.length_append, List.length_flatten]
    simp [Database._list_null, List.map_map, Function.comp_def]

/-- Claim C4: assembling in `insert` mode null-normalizes the parameter
list — every empty-string value is rewritten to `None` and no empty
string ever appears among the returned insert parameters; scenario B
(`insert({'name': 'Alice', 'email': ''})`) yields params
`['Alice', None]` in Setter key order with the SQL column list in that
same order. -/
theorem insert_params_null_normalized (q : Q) :
    (∃ sql, Database.assemble q "insert"
        = Except.ok ((sql,
            Database._list_null ((q.setter.items.map fun cq => cq.2.params).flatten)), q))
      ∧ Value.str "" ∉ (Database._build_insert q).1.2
      ∧ Database.assemble scenarioB "insert"
          = Except.ok (("INSERT INTO users (name,email) VALUES (?,?)",
              [Value.str "Alice", Value.null]), scenarioB) := by
  refine ⟨⟨(Database._build_insert q).1.1, ?_⟩, ?_, ?_⟩
  · rw [assemble_insert_eq, ← build_insert_params q]
    rfl
  · rw [build_insert_params q]
    exact str_empty_not_mem_list_null _
  · rfl

/-- Claim C4 witness: the universally quantified normalization equation,
instantiated at the scenario-B builder. -/
theorem insert_params_null_normalized_witness :
    ∃ sql, Database.assemble scenarioB "insert"
        = Except.ok ((sql,
            Database._list_null
              ((scenarioB.setter.items.map fun cq => cq.2.params).flatten)), scenarioB) :=
  (insert_params_null_normalized scenarioB).1

/-- Conditional extension of a parts list always yields a suffix
extension. -/
theorem ite_append_suffix (parts ext : List String) (c : Prop) [Decidable c] :
    ∃ t, (if c then parts ++ ext else parts) = parts ++ t := by
  by_cases h : c
  · exact ⟨ext, by rw [if_pos h]⟩
  · exact ⟨[], by rw [if_neg h, List.append_nil]⟩

/-- Rendering a parts list that starts `SELECT * FROM` produces SQL text
with that literal prefix. -/
theorem pyJoin_select_star_head (x : String) (T : List String) :
    pyJoin " " ("SELECT" :: "*" :: "FROM" :: x :: T)
      = "SELECT * FROM " ++ pyJoin " " (x :: T) := by
  rw [pyJoin_cons_cons, pyJoin_cons_cons, pyJoin_cons_cons]
  simp only [← String.append_assoc]
  congr 1

/-- Claim C8: with zero selected columns, `Selector.__call__` yields the
single wildcard entry and assembling in `select` mode renders the
literal column list `*` — the SQL starts with `SELECT * FROM`. -/
theorem select_no_columns_wildcard (q : Q) (h : q.selector.cols = []) :
    Selector.call q.selector = ["*"]
      ∧ ∃ rest, Database.assemble q "select"
          = Except.ok (("SELECT * FROM " ++ rest, q.clauser.params), q) := by
  have hcall : Selector.call q.selector = ["*"] := by
    simp [Selector.call, h]
  refine ⟨hcall, ?_⟩
  have hsel : Database._from (Database._select q.selector.call) q.table
      = ["SELECT", "*", "FROM", q.table.identifier] := by
    simp [Database._from, Database._select, hcall]
    rfl
  obtain ⟨t2, h2⟩ : ∃ t, Database._join
      (["SELECT", "*", "FROM", q.table.identifier]) q.joiner.call
      = ["SELECT", "*", "FROM", q.table.identifier] ++ t :=
    ite_append_suffix _ _ _
  obtain ⟨t3, h3⟩ : ∃ t, Database._where
      (["SELECT", "*", "FROM", q.table.identifier] ++ t2) q.clauser.call
      = ["SELECT", "*", "FROM", q.table.identifier] ++ t2 ++ t :=
    ite_append_suffix _ _ _
  obtain ⟨t4, h4⟩ : ∃ t, Database._order
      (["SELECT", "*", "FROM", q.table.identifier] ++ t2 ++ t3) q.orderer.call
      = ["SELECT", "*", "FROM", q.table.identifier] ++ t2 ++ t3 ++ t :=
    ite_append_suffix _ _ _
  obtain ⟨t5, h5⟩ : ∃ t, Database._limit
      (["SELECT", "*", "FROM", q.table.identifier] ++ t2 ++ t3 ++ t4) q.limiter.call
      = ["SELECT", "*", "FROM", q.table.identifier] ++ t2 ++ t3 ++ t4 ++ t :=
    ite_append_suffix _ _ _
  refine ⟨pyJoin " " (q.table.identifier :: (t2 ++ t3 ++ t4 ++ t5)), ?_⟩
  rw [assemble_select_eq]
  have hsql : (Database._build_select q).1.1
      = pyJoin " " ("SELECT" :: "*" :: "FROM" :: q.table.identifier
          :: (t2 ++ t3 ++ t4 ++ t5)) := by
    show pyJoin " " (Database._limit (Database._order (Database._where (Database._join
        (Database._from (Database._select q.selector.call) q.table)
        q.joiner.call) q.clauser.call) q.orderer.call) q.limiter.call) = _
    rw [hsel, h2, h3, h4, h5]
    simp [List.append_assoc]
  have hfin : Database._build_select q
      = (((Database._build_select q).1.1, q.clauser.params), q) := rfl
  rw [hfin, hsql, pyJoin_select_star_head]

/-- Claim C8 witness: instantiated at a fresh builder over the `users`
table, which has zero selected columns. -/
theorem select_no_columns_wildcard_witness :
    Selector.call (Q.init usersTable).selector = ["*"]
      ∧ ∃ rest, Database.assemble (Q.init usersTable) "select"
          = Except.ok (("SELECT * FROM " ++ rest,
              (Q.init usersTable).clauser.params), Q.init usersTable) :=
  select_no_columns_wildcard (Q.init usersTable) rfl

/-- Unfolding one `where` call from a call sequence. -/
theorem clauser_addAll_cons (c : Clauser) (w : String × List Value × Bool)
    (ws : List (String × List Value × Bool)) :
    c.addAll (w :: ws) = (c.add w.1 w.2.1 w.2.2).addAll ws := rfl

/-- The `Clauser.add` always leaves a non-empty clause list. -/
theorem clauser_add_clauses_ne (c : Clauser) (clause : String)
    (ps : List Value) (is_or : Bool) :
    (c.add clause ps is_or).clauses ≠ [] := by
  simp [Clauser.add]

/-- On a non-empty clause list, `Clauser.add` appends a connector and a
clause: two entries. -/
theorem clauser_add_clauses_length_of_ne (c : Clauser) (h : c.clauses ≠ [])
    (clause : String) (ps : List Value) (is_or : Bool) :
    (c.add clause ps is_or).clauses.length = c.clauses.length + 2 := by
  simp [Clauser.add, h]

/-- On a non-empty clause list, a sequence of `where` calls appends two
entries per call. -/
theorem clauser_addAll_clauses_length_of_ne
    (ws : List (String × List Value × Bool)) :
    ∀ (c : Clauser), c.clauses ≠ [] →
      (c.addAll ws).clauses.length = c.clauses.length + 2 * ws.length := by
  induction ws with
  | nil => intro c _; simp [Clauser.addAll]
  | cons w ws ih =>
    intro c h
    rw [clauser_addAll_cons, ih _ (clauser_add_clauses_ne c w.1 w.2.1 w.2.2),
        clauser_add_clauses_length_of_ne c h]
    simp only [List.length_cons]
    omega

/-- The `Clauser.add` extends `params` with exactly the given parameters. -/
theorem clauser_add_params_eq (c : Clauser) (clause : String)
    (ps : List Value) (is_or : Bool) :
    (c.add clause ps is_or).params = c.params ++ ps := rfl

/-- A sequence of `where` calls extends `params` with exactly the
flattened given parameter lists. -/
theorem clauser_addAll_params (ws : List (String × List Value × Bool)) :
    ∀ (c : Clauser),
      (c.addAll ws).params = c.params ++ (ws.map fun w => w.2.1).flatten := by
  induction ws with
  | nil => intro c; simp [Clauser.addAll]
  | cons w ws ih =>
    intro c
    rw [clauser_addAll_cons, ih]
    simp [Clauser.add, List.append_assoc]

/-- Claim C5: for a sequence of `where` calls on a fresh `Clauser`, the
rendered clause list holds the clause fragments plus one connector per
clause after the first — `n + (n - 1)` entries for `n ≥ 1` calls, none
for zero calls — and the params sequence receives exactly the given
parameter values, never a connector. -/
theorem clauser_connector_count (ws : List (String × List Value × Bool)) :
    (ws = [] → (Clauser.init.addAll ws).clauses = [])
      ∧ (ws ≠ [] → (Clauser.init.addAll ws).clauses.length
          = ws.length + (ws.length - 1))
      ∧ (Clauser.init.addAll ws).params = (ws.map fun w => w.2.1).flatten := by
  refine ⟨?_, ?_, ?_⟩
  · intro h
    subst h
    rfl
  · intro h
    cases ws with
    | nil => exact absurd rfl h
    | cons w ws' =>
      rw [clauser_addAll_cons,
          clauser_addAll_clauses_length_of_ne ws' _
            (clauser_add_clauses_ne Clauser.init w.1 w.2.1 w.2.2)]
      have h1 : (Clauser.init.add w.1 w.2.1 w.2.2).clauses = [w.1] := rfl
      rw [h1]
      simp only [List.length_singleton, List.length_cons, List.length_nil]
      omega
  · simpa using clauser_addAll_params ws Clauser.init

/-- Claim C5 witness: a two-call sequence yields three clause entries
(two clauses, one connector) and exactly the two given parameters. -/
theorem clauser_connector_count_witness :
    (Clauser.init.addAll wsEx).clauses.length = 3
      ∧ (Clauser.init.addAll wsEx).params = [Value.int 18, Value.str "Bob"] := by
  constructor
  · exact ((clauser_connector_count wsEx).2.1 (by decide)).trans (by decide)
  · exact ((clauser_connector_count wsEx).2.2).trans (by decide)

/-- Unfolding one `set` call from a call sequence. -/
theorem setter_addAll_cons (s : Setter) (op : String × SetValue)
    (ops : List (String × SetValue)) :
    s.addAll (op :: ops) = (s.add op.1 op.2).addAll ops := rfl

/-- The `any`-test of `setItem` decides key membership. -/
theorem any_key_iff (items : List (String × Expr)) (key : String) :
    items.any (fun kv => kv.1 = key) = true ↔ key ∈ items.map Prod.fst := by
  simp [List.any_eq_true, List.mem_map]

/-- Dict assignment preserves the key sequence when the key is present
and appends the key otherwise. -/
theorem setItem_keys (items : List (String × Expr)) (key : String) (e : Expr) :
    (setItem items key e).map Prod.fst
      = if key ∈ items.map Prod.fst then items.map Prod.fst
        else items.map Prod.fst ++ [key] := by
  by_cases h : key ∈ items.map Prod.fst
  · rw [if_pos h]
    have ha : items.any (fun kv => kv.1 = key) = true := (any_key_iff items key).mpr h
    unfold setItem
    rw [if_pos ha, List.map_map]
    apply List.map_congr_left
    intro kv _
    by_cases hk : kv.1 = key
    · simp [hk]
    · simp [hk]
  · rw [if_neg h]
    have ha : ¬(items.any (fun kv => kv.1 = key) = true) := fun hc =>
      h ((any_key_iff items key).mp hc)
    unfold setItem
    rw [if_neg ha]
    simp

/-- The `Setter.add` preserves the key sequence when the key is present and
appends the key otherwise. -/
theorem setter_add_keys (s : Setter) (key : String) (v : SetValue) :
    (s.add key v).items.map Prod.fst
      = if key ∈ s.items.map Prod.fst then s.items.map Prod.fst
        else s.items.map Prod.fst ++ [key] := by
  cases v with
  | raw e => exact setItem_keys s.items key e
  | val x => exact setItem_keys s.items key (Expr.mk "?" [x])

/-- A sequence of `set` calls keeps the key sequence duplicate-free and
its key set is the starting keys united with the keys of the calls. -/
theorem setter_addAll_keys (ops : List (String × SetValue)) :
    ∀ (s : Setter), (s.items.map Prod.fst).Nodup →
      ((s.addAll ops).items.map Prod.fst).Nodup
        ∧ ((s.addAll ops).items.map Prod.fst).toFinset
            = (s.items.map Prod.fst).toFinset ∪ (ops.map Prod.fst).toFinset := by
  induction ops with
  | nil =>
    intro s h
    exact ⟨h, by simp [Setter.addAll]⟩
  | cons op ops ih =>
    intro s h
    rw [setter_addAll_cons]
    by_cases hmem : op.1 ∈ s.items.map Prod.fst
    · have h2 : (s.add op.1 op.2).items.map Prod.fst = s.items.map Prod.fst := by
        rw [setter_add_keys, if_pos hmem]
      obtain ⟨n2, t2⟩ := ih (s.add op.1 op.2) (by rw [h2]; exact h)
      refine ⟨n2, ?_⟩
      rw [t2, h2, List.map_cons, List.toFinset_cons]
      ext x
      simp only [Finset.mem_union, Finset.mem_insert, List.mem_toFinset]
      constructor
      · rintro (hx | hx)
        · exact Or.inl hx
        · exact Or.inr (Or.inr hx)
      · rintro (hx | hx | hx)
        · exact Or.inl hx
        · exact Or.inl (by rw [hx]; exact hmem)
        · exact Or.inr hx
    · have h2 : (s.add op.1 op.2).items.map Prod.fst
          = s.items.map Prod.fst ++ [op.1] := by
        rw [setter_add_keys, if_neg hmem]
      have hnd : ((s.add op.1 op.2).items.map Prod.fst).Nodup := by
        rw [h2]
        refine List.Nodup.append h (by simp) ?_
        intro a ha hb
        rw [List.mem_singleton] at hb
        exact hmem (by rw [← hb]; exact ha)
      obtain ⟨n2, t2⟩ := ih (s.add op.1 op.2) hnd
      refine ⟨n2, ?_⟩
      rw [t2, h2, List.toFinset_append, List.map_cons, List.toFinset_cons]
      ext x
      simp only [Finset.mem_union, Finset.mem_insert, List.mem_toFinset,
        List.toFinset_cons, List.toFinset_nil, Finset.mem_singleton,
        List.mem_singleton, insert_emptyc_eq]
      tauto

/-- Claim C9: for any sequence of `set` calls applied to a fresh Setter,
the column list and the values-placeholder list built by the insert loop
have equal length, both equal to the number of distinct keys passed. -/
theorem insert_cols_placeholders_distinct_keys (ops : List (String × SetValue)) :
    (Database.insertAccum (Setter.init.addAll ops).items).1.length
        = (Database.insertAccum (Setter.init.addAll ops).items).2.1.length
      ∧ (Database.insertAccum (Setter.init.addAll ops).items).1.length
        = (ops.map Prod.fst).dedup.length := by
  have hkeys := setter_addAll_keys ops Setter.init (by simp [Setter.init])
  constructor
  · simp [insertAccum_eq]
  · have h1 : ((Setter.init.addAll ops).items.map Prod.fst).toFinset.card
        = ((Setter.init.addAll ops).items.map Prod.fst).length :=
      List.toFinset_card_of_nodup hkeys.1
    have h2 : ((Setter.init.addAll ops).items.map Prod.fst).toFinset
        = (ops.map Prod.fst).toFinset := by
      rw [hkeys.2]
      simp [Setter.init]
    calc (Database.insertAccum (Setter.init.addAll ops).items).1.length
        = ((Setter.init.addAll ops).items.map Prod.fst).length := by
          simp [insertAccum_eq]
      _ = ((Setter.init.addAll ops).items.map Prod.fst).toFinset.card := h1.symm
      _ = (ops.map Prod.fst).toFinset.card := by rw [h2]
      _ = (ops.map Prod.fst).dedup.length := List.card_toFinset _

/-- Every handler the dispatch table can return leaves the builder state
unchanged: no `_build_*` function writes any attribute of `qry`. -/
theorem builderFor_snd_eq (name : String) (f : Q → (String × List Value) × Q)
    (hf : Database.builderFor name = some f) (q : Q) : (f q).2 = q := by
  unfold Database.builderFor at hf
  split at hf
  · cases hf; rfl
  · split at hf
    · cases hf; rfl
    · split at hf
      · cases hf; rfl
      · split at hf
        · cases hf; rfl
        · cases hf

/-- Claim C7: a successful assembly leaves the builder state unchanged,
and assembling again in the same mode yields the identical (sql, params)
pair — assembly is side-effect-free and idempotent. -/
theorem assemble_idempotent_state_preserving (q : Q) (mode : String)
    (res : String × List Value) (q2 : Q)
    (h : Database.assemble q mode = Except.ok (res, q2)) :
    q2 = q ∧ Database.assemble q2 mode = Except.ok (res, q2) := by
  have hq : q2 = q := by
    have h2 := h
    simp only [Database.assemble] at h2
    cases hb : Database.builderFor ("_build_" ++ mode) with
    | none =>
      rw [hb] at h2
      exact Except.noConfusion h2
    | some f =>
      rw [hb] at h2
      have h3 : (Except.ok (f q) : Except AsmError ((String × List Value) × Q))
          = Except.ok (res, q2) := h2
      injection h3 with h4
      have h5 := builderFor_snd_eq _ f hb q
      rw [h4] at h5
      exact h5
  subst hq
  exact ⟨rfl, h⟩

/-- Claim C7 witness: a fresh builder over `users`, assembled in
`select` mode; the output state is the input state. -/
theorem assemble_idempotent_state_preserving_witness :
    Database.assemble (Q.init usersTable) "select"
      = Except.ok (("SELECT * FROM users", ([] : List Value)), Q.init usersTable) :=
  (assemble_idempotent_state_preserving (Q.init usersTable) "select"
    ("SELECT * FROM users", []) (Q.init usersTable) rfl).2

/-- Claim C1 counterexample: at mode `"foo"` the code raises the
`AttributeError` of the failed handler lookup `_build_foo`; this error
is not the dedicated unsupported-mode error the claim describes. -/
theorem assemble_foo_mode_not_unsupported :
    Database.assemble (Q.init usersTable) "foo"
        = Except.error (AsmError.attributeError "_build_foo")
      ∧ (decide (AsmError.attributeError "_build_foo"
          = AsmError.unsupportedMode "foo") = false) :=
  ⟨rfl, rfl⟩

/-- Claim C1 (amended): for every mode string outside the four
recognized values, `assemble` builds the handler name `_build_<mode>`,
the lookup finds no such handler, and the call fails with an
`AttributeError` naming that handler — not a dedicated "unsupported
mode" error, and never a successful result. -/
theorem assemble_unrecognized_mode_attributeError (q : Q) (mode : String)
    (h : mode ∉ (["select", "insert", "update", "delete"] : List String)) :
    Database.assemble q mode
      = Except.error (AsmError.attributeError ("_build_" ++ mode)) := by
  have h1 : mode ≠ "select" := fun hc => h (by rw [hc]; simp)
  have h2 : mode ≠ "insert" := fun hc => h (by rw [hc]; simp)
  have h3 : mode ≠ "update" := fun hc => h (by rw [hc]; simp)
  have h4 : mode ≠ "delete" := fun hc => h (by rw [hc]; simp)
  have n1 : ¬("_build_" ++ mode = "_build_select") := fun hc =>
    h1 (@str_append_left_cancel "_build_" mode _ (hc.trans rfl))
  have n2 : ¬("_build_" ++ mode = "_build_insert") := fun hc =>
    h2 (@str_append_left_cancel "_build_" mode _ (hc.trans rfl))
  have n3 : ¬("_build_" ++ mode = "_build_update") := fun hc =>
    h3 (@str_append_left_cancel "_build_" mode _ (hc.trans rfl))
  have n4 : ¬("_build_" ++ mode = "_build_delete") := fun hc =>
    h4 (@str_append_left_cancel "_build_" mode _ (hc.trans rfl))
  simp only [Database.assemble, Database.builderFor]
  rw [if_neg n1, if_neg n2, if_neg n3, if_neg n4]

/-- Claim C1 witness: the amended statement instantiated at the
unrecognized mode `"fetch"`. -/
theorem assemble_unrecognized_mode_attributeError_witness :
    Database.assemble (Q.init usersTable) "fetch"
      = Except.error (AsmError.attributeError ("_build_" ++ "fetch")) :=
  assemble_unrecognized_mode_attributeError (Q.init usersTable) "fetch" (by decide)

/-- A sum of mapped values that are all `1` is the list's length. -/
theorem sum_map_ones {α : Type} (l : List α) (f : α → Nat)
    (h : ∀ x ∈ l, f x = 1) : (l.map f).sum = l.length := by
  induction l with
  | nil => rfl
  | cons a l ih =>
    simp only [List.map_cons, List.sum_cons, List.length_cons]
    rw [h a (List.mem_cons_self a l), ih (fun x hx => h x (List.mem_cons_of_mem a hx))]
    omega

/-- Claim C10 counterexample: a Setter holding the zero-parameter
literal `Expr('0', [])` next to the two-parameter composite
`Expr('(?,?)', [1, 2])` — the insert placeholder count and the insert
parameter count are both 2, so such an entry does not always make the
counts differ. -/
theorem insert_placeholder_param_counts_can_agree :
    ("a", Expr.mk "0" []) ∈ mixedExprQ.setter.items
      ∧ (Expr.mk "0" []).params.length = 0
      ∧ (Database.insertAccum mixedExprQ.setter.items).2.1.length
          = (Database._build_insert mixedExprQ).1.2.length := by
  refine ⟨by decide, rfl, by decide⟩

/-- Claim C10 (amended): in insert mode each Setter entry contributes
exactly the literal placeholder `?` regardless of its `Expr.value`, and
the returned parameter count is the total of the entries' parameter
counts; hence the placeholder count differs from the parameter count
whenever one entry binds zero or multiple parameters while every other
entry binds exactly one. -/
theorem insert_placeholder_vs_param_counts (q : Q) :
    (Database.insertAccum q.setter.items).2.1 = q.setter.items.map (fun _ => "?")
      ∧ (Database._build_insert q).1.2.length
          = (q.setter.items.map fun cq => cq.2.params.length).sum
      ∧ ∀ pre e post, q.setter.items = pre ++ e :: post →
          e.2.params.length ≠ 1 →
          (∀ x ∈ pre, x.2.params.length = 1) →
          (∀ x ∈ post, x.2.params.length = 1) →
          (Database.insertAccum q.setter.items).2.1.length
            ≠ (Database._build_insert q).1.2.length := by
  have hlen : (Database._build_insert q).1.2.length
      = (q.setter.items.map fun cq => cq.2.params.length).sum := by
    rw [build_insert_params q]
    simp [Database._list_null, List.length_flatten, List.map_map, Function.comp_def]
  refine ⟨by simp [insertAccum_eq], hlen, ?_⟩
  intro pre e post hitems hne hpre hpost
  rw [hlen, hitems]
  simp only [insertAccum_eq, List.map_append, List.map_cons, List.sum_append,
    List.sum_cons, List.length_append, List.length_map, List.length_cons]
  rw [sum_map_ones pre _ hpre, sum_map_ones post _ hpost]
  omega

/-- Claim C10 witness: the amended statement instantiated at a Setter
holding one single-parameter entry and one two-parameter entry — the
placeholder count (2) and the parameter count (3) disagree. -/
theorem insert_placeholder_vs_param_counts_witness :
    ((Database.insertAccum unbalancedExprQ.setter.items).2.1.length
        == (Database._build_insert unbalancedExprQ).1.2.length) = false := by
  have h := (insert_placeholder_vs_param_counts unbalancedExprQ).2.2
    [("a", Expr.mk "?" [Value.str "x"])]
    ("b", Expr.mk "(?,?)" [Value.int 1, Value.int 2]) []
    (by decide) (by decide) (by decide) (by decide)
  exact beq_eq_false_iff_ne.mpr h
